import Mathlib

/-!
Shallow embedding of the decision core of the Titan-Forge algorithmic trading
agent (risk manager, regime classifier, adjustment advisor, signal generator),
with theorems checking the natural-language specification against it.
Python floats are modelled by exact rationals; NaN-valued results by Option;
a raised ValueError at construction by an Option-returning constructor.
-/

namespace TitanForge

/-- State of RiskManager (risk_management/risk_manager.py): account balance,
the balance snapshot used for the daily limit, the two percentages, and the
loss accumulated today. -/
structure RiskManager where
  account_balance : ℚ
  initial_balance : ℚ
  risk_per_trade_percentage : ℚ
  daily_risk_limit_percentage : ℚ
  daily_loss_incurred : ℚ
deriving DecidableEq, Repr

/-- Embeds RiskManager.__init__: validates both percentages in (0,1] and a
positive balance; a ValueError is modelled as none. -/
def mkRiskManager (account_balance risk_per_trade_percentage daily_risk_limit_percentage : ℚ) :
    Option RiskManager :=
  if ¬ (0 < risk_per_trade_percentage ∧ risk_per_trade_percentage ≤ 1) then none
  else if ¬ (0 < daily_risk_limit_percentage ∧ daily_risk_limit_percentage ≤ 1) then none
  else if account_balance ≤ 0 then none
  else some { account_balance := account_balance
              initial_balance := account_balance
              risk_per_trade_percentage := risk_per_trade_percentage
              daily_risk_limit_percentage := daily_risk_limit_percentage
              daily_loss_incurred := 0 }

/-- Embeds RiskManager.calculate_position_size. -/
def calculate_position_size (rm : RiskManager) (entry_price stop_loss_price : ℚ)
    (asset_multiplier : ℚ := 1) : ℚ :=
  if stop_loss_price ≤ 0 ∨ entry_price ≤ 0 then 0
  else
    let risk_per_trade_dollars := rm.account_balance * rm.risk_per_trade_percentage
    let price_difference := |entry_price - stop_loss_price|
    if price_difference = 0 then 0
    else risk_per_trade_dollars / (price_difference * asset_multiplier)

/-- Embeds RiskManager.determine_take_profit (the method reads no state from
self). np.nan is modelled as none. -/
def determine_take_profit (entry_price stop_loss_price risk_reward_ratio : ℚ) : Option ℚ :=
  if entry_price ≤ 0 ∨ stop_loss_price ≤ 0 ∨ risk_reward_ratio ≤ 0 then none
  else
    let price_difference := |entry_price - stop_loss_price|
    let take_profit_distance := price_difference * risk_reward_ratio
    if entry_price > stop_loss_price then
      some (entry_price + take_profit_distance)
    else if entry_price < stop_loss_price then
      let take_profit_price := entry_price - take_profit_distance
      if take_profit_price < 0 then some (entry_price * (5/100))
      else some take_profit_price
    else none

/-- Embeds RiskManager.update_trailing_stop (the method reads no state from
self): candidate new stop, returned only when it tightens, else the old level. -/
def update_trailing_stop (current_price trailing_stop_level : ℚ) (long_position : Bool) : ℚ :=
  if long_position then
    let new_trailing_stop := max trailing_stop_level (current_price * (98/100))
    if new_trailing_stop > trailing_stop_level then new_trailing_stop
    else trailing_stop_level
  else
    let new_trailing_stop := min trailing_stop_level (current_price * (102/100))
    if new_trailing_stop < trailing_stop_level then new_trailing_stop
    else trailing_stop_level

/-- Embeds RiskManager.check_daily_risk_limit. -/
def check_daily_risk_limit (rm : RiskManager) : Bool :=
  let daily_risk_limit_dollars := rm.initial_balance * rm.daily_risk_limit_percentage
  if rm.daily_loss_incurred ≥ daily_risk_limit_dollars then false
  else true

/-- Embeds RiskManager.update_daily_loss: a positive amount is added to the
daily loss and subtracted from the balance; otherwise nothing is mutated
(a negative amount is only logged). -/
def update_daily_loss (rm : RiskManager) (loss_amount : ℚ) : RiskManager :=
  if loss_amount > 0 then
    { rm with daily_loss_incurred := rm.daily_loss_incurred + loss_amount
              account_balance := rm.account_balance - loss_amount }
  else rm

/-- Embeds RiskManager.reset_daily_loss. -/
def reset_daily_loss (rm : RiskManager) : RiskManager :=
  { rm with daily_loss_incurred := 0
            initial_balance := rm.account_balance }

/-- States of RiskManager reachable through its public mutating interface:
a validated construction followed by any sequence of update_daily_loss and
reset_daily_loss calls. -/
inductive Reachable : RiskManager → Prop where
  | init {b r d : ℚ} {rm : RiskManager} :
      mkRiskManager b r d = some rm → Reachable rm
  | loss {rm : RiskManager} (amount : ℚ) :
      Reachable rm → Reachable (update_daily_loss rm amount)
  | reset {rm : RiskManager} :
      Reachable rm → Reachable (reset_daily_loss rm)

/-! Adaptability manager (adaptability/adaptability_manager.py). -/

/-- Volatility label as classified by analyze_market_conditions. -/
inductive Volatility where
  | high
  | low
  | unknown
deriving DecidableEq, Repr

/-- Trend label as classified by analyze_market_conditions. -/
inductive TrendState where
  | trending
  | ranging
  | unknown
deriving DecidableEq, Repr

/-- Regime tag as produced by analyze_market_conditions. -/
inductive Regime where
  | TRENDING_HIGH_VOL
  | TRENDING_LOW_VOL
  | RANGING_HIGH_VOL
  | RANGING_LOW_VOL
  | UNCERTAIN
  | UNKNOWN
deriving DecidableEq, Repr

/-- The market_conditions dictionary: each key may be absent (none). -/
structure MarketConditions where
  volatility : Option Volatility
  trend : Option TrendState
  regime : Option Regime
deriving DecidableEq, Repr

/-- Thresholds held by AdaptabilityManager.__init__ (defaults 0.02 and 20). -/
structure AdaptabilityManager where
  volatility_threshold : ℚ
  trend_strength_threshold : ℚ
deriving DecidableEq, Repr

/-- Input DataFrame for analyze_market_conditions: its row count, its column
names, and the values of the close column (none models a NaN cell). -/
structure MarketDataFrame where
  nrows : ℕ
  cols : List String
  close : List (Option ℚ)
deriving DecidableEq, Repr

/-- The volatility classification step of analyze_market_conditions from the
latest ATR and close values (none models NaN). -/
def classifyVolatility (am : AdaptabilityManager) (latest_atr latest_close : Option ℚ) :
    Volatility :=
  match latest_atr, latest_close with
  | some atr, some c =>
      if c ≠ 0 then
        if atr / c > am.volatility_threshold then Volatility.high else Volatility.low
      else Volatility.unknown
  | _, _ => Volatility.unknown

/-- The trend classification of analyze_market_conditions from the latest ADX
value (none models NaN). -/
def classifyTrend (am : AdaptabilityManager) (latest_adx : Option ℚ) : TrendState :=
  match latest_adx with
  | some adxv =>
      if adxv > am.trend_strength_threshold then TrendState.trending
      else TrendState.ranging
  | none => TrendState.unknown

/-- The regime if-chain of analyze_market_conditions. -/
def regimeOf (trend : TrendState) (volatility : Volatility) : Regime :=
  if trend = TrendState.trending ∧ volatility = Volatility.high then
    Regime.TRENDING_HIGH_VOL
  else if trend = TrendState.trending ∧ volatility = Volatility.low then
    Regime.TRENDING_LOW_VOL
  else if trend = TrendState.ranging ∧ volatility = Volatility.high then
    Regime.RANGING_HIGH_VOL
  else if trend = TrendState.ranging ∧ volatility = Volatility.low then
    Regime.RANGING_LOW_VOL
  else Regime.UNCERTAIN

/-- Embeds AdaptabilityManager.analyze_market_conditions. The two calls into
the external ta library (average_true_range and ADXIndicator.adx, third-party
code outside this repository) are modelled by their outcomes, passed as
arguments: Except.error is a raised exception (caught by the try/except of the
source), Except.ok none a NaN latest value, Except.ok (some v) a numeric
latest value. -/
def analyze_market_conditions (am : AdaptabilityManager) (data : MarketDataFrame)
    (atrResult adxResult : Except Unit (Option ℚ)) : MarketConditions :=
  if data.nrows = 0 then
    { volatility := none, trend := none, regime := some Regime.UNKNOWN }
  else if ¬ (["high", "low", "close"].all (fun col => data.cols.contains col)) then
    { volatility := none, trend := none, regime := some Regime.UNKNOWN }
  else
    match atrResult with
    | Except.error _ =>
        { volatility := some Volatility.unknown, trend := some TrendState.unknown
          regime := some Regime.UNKNOWN }
    | Except.ok latest_atr =>
      let latest_close : Option ℚ := data.close.getLast?.join
      let volatility : Volatility := classifyVolatility am latest_atr latest_close
      match adxResult with
      | Except.error _ =>
          { volatility := some Volatility.unknown, trend := some TrendState.unknown
            regime := some Regime.UNKNOWN }
      | Except.ok latest_adx =>
        let trend : TrendState := classifyTrend am latest_adx
        { volatility := some volatility, trend := some trend
          regime := some (regimeOf trend volatility) }

/-- The suggested_adjustments dictionary: every branch of the source sets all
four keys, so the fields are total. -/
structure StrategyAdjustment where
  strategy_type : String
  risk_per_trade_multiplier : ℚ
  stop_loss_multiplier : ℚ
  take_profit_multiplier : ℚ
deriving DecidableEq, Repr

/-- Embeds AdaptabilityManager.suggest_strategy_adjustment (the method reads no
state from self): the per-regime table, then the volatility post-adjustment of
stop_loss_multiplier only. -/
def suggest_strategy_adjustment (market_conditions : MarketConditions) : StrategyAdjustment :=
  let current_regime := market_conditions.regime.getD Regime.UNKNOWN
  let volatility_level := market_conditions.volatility.getD Volatility.unknown
  let base : StrategyAdjustment :=
    match current_regime with
    | Regime.TRENDING_HIGH_VOL =>
        { strategy_type := "trend_following", risk_per_trade_multiplier := 8/10
          stop_loss_multiplier := 15/10, take_profit_multiplier := 2 }
    | Regime.TRENDING_LOW_VOL =>
        { strategy_type := "trend_following", risk_per_trade_multiplier := 1
          stop_loss_multiplier := 1, take_profit_multiplier := 15/10 }
    | Regime.RANGING_HIGH_VOL =>
        { strategy_type := "range_bound", risk_per_trade_multiplier := 6/10
          stop_loss_multiplier := 18/10, take_profit_multiplier := 12/10 }
    | Regime.RANGING_LOW_VOL =>
        { strategy_type := "range_bound", risk_per_trade_multiplier := 1
          stop_loss_multiplier := 1, take_profit_multiplier := 1 }
    | _ =>
        { strategy_type := "hold", risk_per_trade_multiplier := 5/10
          stop_loss_multiplier := 1, take_profit_multiplier := 1 }
  if volatility_level = Volatility.high then
    { base with stop_loss_multiplier := base.stop_loss_multiplier * (12/10) }
  else if volatility_level = Volatility.low then
    { base with stop_loss_multiplier := base.stop_loss_multiplier * (8/10) }
  else base

/-! Combined strategy (strategy/trading_strategy.py). -/

/-- One OHLCV row of the strategy input (the columns the signal logic reads). -/
structure Bar where
  high : ℚ
  low : ℚ
  close : ℚ
  volume : ℚ
deriving DecidableEq, Repr

/-- Trading signal returned by generate_signal. -/
inductive Signal where
  | BUY
  | SELL
  | HOLD
deriving DecidableEq, Repr

/-- Values of xs in the length-n window ending at index i (pandas rolling
window semantics). -/
def windowSlice (xs : List ℚ) (n i : ℕ) : List ℚ :=
  (xs.take (i + 1)).drop (i + 1 - n)

/-- Simple moving average at index i with window n and min_periods = n, the
semantics of ta.trend.sma_indicator with fillna left False: none models the
NaN produced while fewer than n rows are available. -/
def smaAt (xs : List ℚ) (n i : ℕ) : Option ℚ :=
  if i + 1 < n then none
  else some ((windowSlice xs n i).sum / (n : ℚ))

/-- Maximum of a list of rationals, none when empty. -/
def listMax : List ℚ → Option ℚ
  | [] => none
  | x :: xs => some (xs.foldl max x)

/-- Minimum of a list of rationals, none when empty. -/
def listMin : List ℚ → Option ℚ
  | [] => none
  | x :: xs => some (xs.foldl min x)

/-- Rolling maximum at index i with window n (pandas rolling(n).max: NaN,
modelled none, while fewer than n rows are available). -/
def rollMaxAt (xs : List ℚ) (n i : ℕ) : Option ℚ :=
  if i + 1 < n then none else listMax (windowSlice xs n i)

/-- Rolling minimum at index i with window n. -/
def rollMinAt (xs : List ℚ) (n i : ℕ) : Option ℚ :=
  if i + 1 < n then none else listMin (windowSlice xs n i)

/-- Row i of the processed DataFrame after _analyze_pvg, _analyze_smc and
_analyze_tpr: the close price, the two close SMAs (windows 14 and 50), both
swing flags (pandas equality against a NaN rolling extremum is False, so the
astype(int) columns are 0/1 and never NaN), and the volume SMA (window 20). -/
structure IndicatorRow where
  close : ℚ
  smaShort : Option ℚ
  smaLong : Option ℚ
  swingHigh : ℤ
  swingLow : ℤ
  volumeSMA : Option ℚ
deriving DecidableEq, Repr

/-- Builds row i of the processed DataFrame for the given bars. -/
def buildRow (bars : List Bar) (i : ℕ) : IndicatorRow :=
  { close := (bars.map Bar.close).getD i 0
    smaShort := smaAt (bars.map Bar.close) 14 i
    smaLong := smaAt (bars.map Bar.close) 50 i
    swingHigh :=
      if rollMaxAt (bars.map Bar.high) 20 i = some ((bars.map Bar.high).getD i 0) then 1 else 0
    swingLow :=
      if rollMinAt (bars.map Bar.low) 20 i = some ((bars.map Bar.low).getD i 0) then 1 else 0
    volumeSMA := smaAt (bars.map Bar.volume) 20 i }

/-- The dropna predicate: a row survives iff none of its NaN-able cells (the
three SMA columns) is NaN. -/
def keepRow (r : IndicatorRow) : Bool :=
  r.smaShort.isSome && r.smaLong.isSome && r.volumeSMA.isSome

/-- Embeds CombinedStrategy.generate_signal: empty input holds, indicator
columns are added, rows with NaNs dropped, and the decision rule is evaluated
on the last remaining row using the source's .get defaults. -/
def generate_signal (bars : List Bar) : Signal :=
  if bars.isEmpty then Signal.HOLD
  else
    let processed := ((List.range bars.length).map (buildRow bars)).filter keepRow
    match processed.getLast? with
    | none => Signal.HOLD
    | some latest =>
      let buy_condition_pvg := latest.smaShort.getD (-1) > latest.smaLong.getD (-1)
      let buy_condition_smc := latest.swingLow = 1
      let buy_condition_tpr := latest.close > latest.smaLong.getD 0 ∧ latest.volumeSMA.getD 0 > 0
      if buy_condition_pvg ∧ buy_condition_smc ∧ buy_condition_tpr then Signal.BUY
      else
        let sell_condition_pvg := latest.smaShort.getD 1 < latest.smaLong.getD 1
        let sell_condition_smc := latest.swingHigh = 1
        let sell_condition_tpr := latest.close < latest.smaLong.getD 0 ∧ latest.volumeSMA.getD 0 > 0
        if sell_condition_pvg ∧ sell_condition_smc ∧ sell_condition_tpr then Signal.SELL
        else Signal.HOLD

/-- Indices of the rows that survive the discarding of rows with undefined
indicator values, as worded by the spec. -/
def retainedIndices (bars : List Bar) : List ℕ :=
  (List.range bars.length).filter fun i =>
    (smaAt (bars.map Bar.close) 14 i).isSome && (smaAt (bars.map Bar.close) 50 i).isSome &&
      (smaAt (bars.map Bar.volume) 20 i).isSome

/-- Signal decision rule as the spec words it, for the refinement theorem of
claim C9: on the most recent retained row, BUY iff short SMA above long SMA,
the bar is a rolling 20-period swing low, close above long SMA and positive
volume SMA; else SELL on the mirrored conditions; else HOLD, and HOLD when
nothing remains. -/
def specSignal (bars : List Bar) : Signal :=
  match (retainedIndices bars).getLast? with
  | none => Signal.HOLD
  | some i =>
    match smaAt (bars.map Bar.close) 14 i, smaAt (bars.map Bar.close) 50 i,
        smaAt (bars.map Bar.volume) 20 i with
    | some smaShort, some smaLong, some volumeSMA =>
      let close := (bars.map Bar.close).getD i 0
      if smaShort > smaLong ∧
          rollMinAt (bars.map Bar.low) 20 i = some ((bars.map Bar.low).getD i 0) ∧
          close > smaLong ∧ volumeSMA > 0 then Signal.BUY
      else if smaShort < smaLong ∧
          rollMaxAt (bars.map Bar.high) 20 i = some ((bars.map Bar.high).getD i 0) ∧
          close < smaLong ∧ volumeSMA > 0 then Signal.SELL
      else Signal.HOLD
    | _, _, _ => Signal.HOLD

/-! Concrete states and inputs shared by several theorems below. -/

/-- RiskManager state produced by a validated construction with balance 10000,
1 percent risk per trade and 5 percent daily limit. -/
def rm10000 : RiskManager :=
  { account_balance := 10000, initial_balance := 10000
    risk_per_trade_percentage := 1/100, daily_risk_limit_percentage := 5/100
    daily_loss_incurred := 0 }

/-- RiskManager state produced by a validated construction with balance 100. -/
def rmSmall : RiskManager :=
  { account_balance := 100, initial_balance := 100
    risk_per_trade_percentage := 1/100, daily_risk_limit_percentage := 5/100
    daily_loss_incurred := 0 }

/-- AdaptabilityManager with the default thresholds 0.02 and 20. -/
def amDefault : AdaptabilityManager :=
  { volatility_threshold := 2/100, trend_strength_threshold := 20 }

/-- An empty market DataFrame. -/
def dfEmpty : MarketDataFrame := { nrows := 0, cols := [], close := [] }

/-- A one-row market DataFrame with the required columns and close 100. -/
def dfOne : MarketDataFrame :=
  { nrows := 1, cols := ["high", "low", "close"], close := [some 100] }

/-- A one-row market DataFrame missing the close column. -/
def dfNoClose : MarketDataFrame := { nrows := 1, cols := ["high", "low"], close := [] }

theorem mk_rm10000 : mkRiskManager 10000 (1/100) (5/100) = some rm10000 := by
  unfold mkRiskManager rm10000
  norm_num

theorem mk_rmSmall : mkRiskManager 100 (1/100) (5/100) = some rmSmall := by
  unfold mkRiskManager rmSmall
  norm_num

/-- C1: for every entry and stop-loss price both positive with entry distinct
from stop and asset_multiplier 1, calculate_position_size returns exactly
account_balance times risk_per_trade_percentage divided by the absolute price
difference; if either price is nonpositive or entry equals stop it returns 0. -/
theorem claim_C1 (rm : RiskManager) (entry_price stop_loss_price : ℚ) :
    (0 < entry_price → 0 < stop_loss_price → entry_price ≠ stop_loss_price →
      calculate_position_size rm entry_price stop_loss_price 1 =
        rm.account_balance * rm.risk_per_trade_percentage / |entry_price - stop_loss_price|) ∧
    (entry_price ≤ 0 ∨ stop_loss_price ≤ 0 ∨ entry_price = stop_loss_price →
      calculate_position_size rm entry_price stop_loss_price 1 = 0) := by
  constructor
  · intro he hs hne
    unfold calculate_position_size
    dsimp only
    rw [if_neg (by push_neg; exact ⟨hs, he⟩)]
    rw [if_neg (fun h => hne (sub_eq_zero.mp (abs_eq_zero.mp h)))]
    rw [mul_one]
  · intro h
    unfold calculate_position_size
    dsimp only
    split_ifs with h1 h2
    · rfl
    · rfl
    · exfalso
      rcases h with h | h | h
      · exact h1 (Or.inr h)
      · exact h1 (Or.inl h)
      · exact h2 (by rw [h, sub_self, abs_zero])

/-- Witness for C1 at the spec's scenario: balance 10000, risk 1 percent,
entry 100, stop 99 gives position size 100. -/
theorem claim_C1_witness :
    (0:ℚ) < 100 ∧ (0:ℚ) < 99 ∧ (100:ℚ) ≠ 99 ∧
      calculate_position_size rm10000 100 99 1 = 100 := by
  refine ⟨by norm_num, by norm_num, by norm_num, ?_⟩
  rw [(claim_C1 rm10000 100 99).1 (by norm_num) (by norm_num) (by norm_num)]
  unfold rm10000
  norm_num

/-- C2: for every reachable RiskManager state, check_daily_risk_limit is true
iff daily_loss_incurred is strictly below initial balance times the daily risk
limit percentage, and is false when the loss equals the limit exactly. -/
theorem claim_C2 (rm : RiskManager) (_hreach : Reachable rm) :
    (check_daily_risk_limit rm = true ↔
      rm.daily_loss_incurred < rm.initial_balance * rm.daily_risk_limit_percentage) ∧
    (rm.daily_loss_incurred = rm.initial_balance * rm.daily_risk_limit_percentage →
      check_daily_risk_limit rm = false) := by
  constructor
  · unfold check_daily_risk_limit
    dsimp only
    split_ifs with hge
    · simp only [Bool.false_eq_true, false_iff, not_lt]
      exact hge
    · simp only [true_iff]
      exact lt_of_not_ge hge
  · intro heq
    unfold check_daily_risk_limit
    dsimp only
    rw [if_pos heq.ge]

/-- Witness for C2 at the boundary: from a validated construction with balance
10000 and a 5 percent daily limit, recording a loss of exactly 500 makes the
daily limit check return false. -/
theorem claim_C2_witness :
    check_daily_risk_limit (update_daily_loss rm10000 500) = false := by
  refine (claim_C2 _ (Reachable.loss 500 (Reachable.init mk_rm10000))).2 ?_
  unfold update_daily_loss rm10000
  norm_num

theorem update_daily_loss_loss_mono (rm : RiskManager) (a : ℚ) :
    rm.daily_loss_incurred ≤ (update_daily_loss rm a).daily_loss_incurred := by
  unfold update_daily_loss
  split_ifs with h
  · exact le_add_of_nonneg_right h.le
  · exact le_refl _

theorem foldl_update_daily_loss_loss_mono (amounts : List ℚ) :
    ∀ rm : RiskManager,
      rm.daily_loss_incurred ≤ (amounts.foldl update_daily_loss rm).daily_loss_incurred := by
  induction amounts with
  | nil => intro rm; exact le_refl _
  | cons a as ih =>
      intro rm
      exact le_trans (update_daily_loss_loss_mono rm a) (ih (update_daily_loss rm a))

/-- C4: a positive loss amount is added to daily_loss_incurred and subtracted
from account_balance; a nonpositive amount leaves the whole state unchanged;
hence daily_loss_incurred is non-decreasing across every sequence of
update_daily_loss calls. -/
theorem claim_C4 (rm : RiskManager) (loss_amount : ℚ) :
    (0 < loss_amount →
      (update_daily_loss rm loss_amount).daily_loss_incurred =
          rm.daily_loss_incurred + loss_amount ∧
        (update_daily_loss rm loss_amount).account_balance =
          rm.account_balance - loss_amount) ∧
    (loss_amount ≤ 0 → update_daily_loss rm loss_amount = rm) ∧
    (∀ amounts : List ℚ,
      rm.daily_loss_incurred ≤ (amounts.foldl update_daily_loss rm).daily_loss_incurred) := by
  refine ⟨?_, ?_, fun amounts => foldl_update_daily_loss_loss_mono amounts rm⟩
  · intro hpos
    unfold update_daily_loss
    rw [if_pos hpos]
    exact ⟨rfl, rfl⟩
  · intro hnonpos
    unfold update_daily_loss
    rw [if_neg (not_lt.mpr hnonpos)]

/-- Witness for C4: recording a loss of 50 on the balance-10000 state moves
both counters, and a loss of -10 leaves the state untouched. -/
theorem claim_C4_witness :
    (0:ℚ) < 50 ∧ (-10:ℚ) ≤ 0 ∧
      (update_daily_loss rm10000 50).daily_loss_incurred = 0 + 50 ∧
      (update_daily_loss rm10000 50).account_balance = 10000 - 50 ∧
      update_daily_loss rm10000 (-10) = rm10000 := by
  obtain ⟨h1, h2⟩ := (claim_C4 rm10000 50).1 (by norm_num)
  refine ⟨by norm_num, by norm_num, h1, h2, ?_⟩
  exact (claim_C4 rm10000 (-10)).2.1 (by norm_num)

/-- C10: positivity of account_balance is enforced only at construction. From
the validated balance-100 state, one update_daily_loss call with amount 150
(at least the balance) leaves a nonpositive balance, yet that state is
reachable; moreover for every state an amount at least the balance drives it
nonpositive, no mutating operation ever increases account_balance, and
reset_daily_loss keeps it exactly, so nothing restores positivity. -/
theorem claim_C10 :
    (mkRiskManager 100 (1/100) (5/100) = some rmSmall ∧
      Reachable (update_daily_loss rmSmall 150) ∧
      (update_daily_loss rmSmall 150).account_balance ≤ 0) ∧
    (∀ (rm : RiskManager) (a : ℚ), rm.account_balance ≤ a →
      (update_daily_loss rm a).account_balance ≤ 0) ∧
    (∀ (rm : RiskManager) (a : ℚ),
      (update_daily_loss rm a).account_balance ≤ rm.account_balance) ∧
    (∀ rm : RiskManager, (reset_daily_loss rm).account_balance = rm.account_balance) := by
  have hdrop : ∀ (rm : RiskManager) (a : ℚ),
      (update_daily_loss rm a).account_balance ≤ rm.account_balance := by
    intro rm a
    unfold update_daily_loss
    split_ifs with h
    · exact sub_le_self _ h.le
    · exact le_refl _
  have hnonpos : ∀ (rm : RiskManager) (a : ℚ), rm.account_balance ≤ a →
      (update_daily_loss rm a).account_balance ≤ 0 := by
    intro rm a hle
    unfold update_daily_loss
    split_ifs with h
    · exact sub_nonpos.mpr hle
    · exact hle.trans (not_lt.mp h)
  refine ⟨⟨mk_rmSmall, Reachable.loss 150 (Reachable.init mk_rmSmall), ?_⟩,
    hnonpos, hdrop, fun rm => rfl⟩
  exact hnonpos rmSmall 150 (by unfold rmSmall; norm_num)

/-- Witness for C10: the concrete amount 150 meets the balance-100 state's
balance, and the resulting balance is nonpositive. -/
theorem claim_C10_witness :
    rmSmall.account_balance ≤ 150 ∧ (update_daily_loss rmSmall 150).account_balance ≤ 0 :=
  ⟨by unfold rmSmall; norm_num,
    claim_C10.2.1 rmSmall 150 (by unfold rmSmall; norm_num)⟩

theorem update_trailing_stop_long (current_price trailing_stop_level : ℚ) :
    update_trailing_stop current_price trailing_stop_level true =
      max trailing_stop_level (current_price * (98/100)) := by
  unfold update_trailing_stop
  rw [if_pos rfl]
  dsimp only
  split_ifs with h
  · rfl
  · exact (le_antisymm (not_lt.mp h) (le_max_left _ _)).symm

theorem update_trailing_stop_short (current_price trailing_stop_level : ℚ) :
    update_trailing_stop current_price trailing_stop_level false =
      min trailing_stop_level (current_price * (102/100)) := by
  unfold update_trailing_stop
  rw [if_neg Bool.false_ne_true]
  dsimp only
  split_ifs with h
  · rfl
  · exact (le_antisymm (min_le_left _ _) (not_lt.mp h)).symm

theorem update_trailing_stop_long_ge (current_price trailing_stop_level : ℚ) :
    trailing_stop_level ≤ update_trailing_stop current_price trailing_stop_level true := by
  rw [update_trailing_stop_long]
  exact le_max_left _ _

theorem update_trailing_stop_short_le (current_price trailing_stop_level : ℚ) :
    update_trailing_stop current_price trailing_stop_level false ≤ trailing_stop_level := by
  rw [update_trailing_stop_short]
  exact min_le_left _ _

theorem foldl_trailing_long_ge (prices : List ℚ) :
    ∀ stop : ℚ, stop ≤ prices.foldl (fun s p => update_trailing_stop p s true) stop := by
  induction prices with
  | nil => intro stop; exact le_refl _
  | cons p ps ih =>
      intro stop
      exact le_trans (update_trailing_stop_long_ge p stop) (ih _)

theorem foldl_trailing_long_const (rest : List ℚ) :
    ∀ first_price stop : ℚ, List.Chain (fun a b => b < a) first_price rest →
      first_price * (98/100) ≤ stop →
      (first_price :: rest).foldl (fun s p => update_trailing_stop p s true) stop = stop := by
  induction rest with
  | nil =>
      intro p s _ hle
      simp only [List.foldl_cons, List.foldl_nil]
      rw [update_trailing_stop_long]
      exact max_eq_left hle
  | cons q qs ih =>
      intro p s hchain hle
      obtain ⟨hqp, hchain2⟩ := List.chain_cons.mp hchain
      have hstep : update_trailing_stop p s true = s := by
        rw [update_trailing_stop_long]
        exact max_eq_left hle
      have hq : q * (98/100) ≤ s :=
        le_trans (mul_le_mul_of_nonneg_right hqp.le (by norm_num)) hle
      simp only [List.foldl_cons] at *
      rw [hstep]
      exact ih q s hchain2 hq

/-- C3 counterexample: the stop 90 and the strictly decreasing price sequence
100, 99 refute the clause that a decreasing price sequence leaves the stop of
a long position unchanged: the first update already ratchets 90 up to 98. -/
theorem claim_C3_counterexample :
    ((99:ℚ) < 100) ∧
      [(100:ℚ), 99].foldl (fun s p => update_trailing_stop p s true) 90 ≠ 90 := by
  constructor
  · norm_num
  · have h1 : update_trailing_stop 100 90 true = 98 := by
      rw [update_trailing_stop_long, show (100:ℚ) * (98/100) = 98 by norm_num]
      exact max_eq_right (by norm_num)
    have h2 : update_trailing_stop 99 98 true = 98 := by
      rw [update_trailing_stop_long]
      exact max_eq_left (by norm_num)
    simp only [List.foldl_cons, List.foldl_nil]
    rw [h1, h2]
    norm_num

/-- C3 amended: update_trailing_stop is exactly the max (long) and min (short)
ratchet, so the long stop never decreases and the short stop never increases
along any price sequence; and a strictly decreasing price sequence leaves the
long stop unchanged provided the stop already trails the first price, that is
first_price times 0.98 is at most the stop. -/
theorem claim_C3 :
    (∀ current_price trailing_stop_level : ℚ,
      update_trailing_stop current_price trailing_stop_level true =
          max trailing_stop_level (current_price * (98/100)) ∧
        update_trailing_stop current_price trailing_stop_level false =
          min trailing_stop_level (current_price * (102/100))) ∧
    (∀ current_price trailing_stop_level : ℚ,
      trailing_stop_level ≤ update_trailing_stop current_price trailing_stop_level true ∧
        update_trailing_stop current_price trailing_stop_level false ≤ trailing_stop_level) ∧
    (∀ (stop : ℚ) (prices : List ℚ),
      stop ≤ prices.foldl (fun s p => update_trailing_stop p s true) stop) ∧
    (∀ (stop first_price : ℚ) (rest : List ℚ),
      List.Chain (fun a b => b < a) first_price rest →
      first_price * (98/100) ≤ stop →
      (first_price :: rest).foldl (fun s p => update_trailing_stop p s true) stop = stop) :=
  ⟨fun p s => ⟨update_trailing_stop_long p s, update_trailing_stop_short p s⟩,
    fun p s => ⟨update_trailing_stop_long_ge p s, update_trailing_stop_short_le p s⟩,
    fun stop prices => foldl_trailing_long_ge prices stop,
    fun stop first_price rest hchain hle =>
      foldl_trailing_long_const rest first_price stop hchain hle⟩

/-- Witness for C3: with stop 98 already trailing the first price 100, the
strictly decreasing sequence 100, 99 leaves the stop at 98. -/
theorem claim_C3_witness :
    List.Chain (fun a b : ℚ => b < a) 100 [99] ∧ (100:ℚ) * (98/100) ≤ 98 ∧
      [(100:ℚ), 99].foldl (fun s p => update_trailing_stop p s true) 98 = 98 := by
  have hchain : List.Chain (fun a b : ℚ => b < a) 100 [99] :=
    List.Chain.cons (by norm_num) List.Chain.nil
  exact ⟨hchain, by norm_num, claim_C3.2.2.2 98 100 [99] hchain (by norm_num)⟩

theorem determine_take_profit_pos_long (entry_price stop_loss_price risk_reward_ratio : ℚ)
    (he : 0 < entry_price) (hs : 0 < stop_loss_price) (hr : 0 < risk_reward_ratio)
    (hlt : stop_loss_price < entry_price) :
    determine_take_profit entry_price stop_loss_price risk_reward_ratio =
      some (entry_price + |entry_price - stop_loss_price| * risk_reward_ratio) := by
  unfold determine_take_profit
  dsimp only
  rw [if_neg (by push_neg; exact ⟨he, hs, hr⟩), if_pos hlt]

theorem determine_take_profit_short_floor (entry_price stop_loss_price risk_reward_ratio : ℚ)
    (he : 0 < entry_price) (hs : 0 < stop_loss_price) (hr : 0 < risk_reward_ratio)
    (hlt : entry_price < stop_loss_price)
    (hneg : entry_price - |entry_price - stop_loss_price| * risk_reward_ratio < 0) :
    determine_take_profit entry_price stop_loss_price risk_reward_ratio =
      some (entry_price * (5/100)) := by
  unfold determine_take_profit
  dsimp only
  rw [if_neg (by push_neg; exact ⟨he, hs, hr⟩), if_neg (not_lt.mpr hlt.le), if_pos hlt,
    if_pos hneg]

theorem determine_take_profit_short_no_floor (entry_price stop_loss_price risk_reward_ratio : ℚ)
    (he : 0 < entry_price) (hs : 0 < stop_loss_price) (hr : 0 < risk_reward_ratio)
    (hlt : entry_price < stop_loss_price)
    (hnn : 0 ≤ entry_price - |entry_price - stop_loss_price| * risk_reward_ratio) :
    determine_take_profit entry_price stop_loss_price risk_reward_ratio =
      some (entry_price - |entry_price - stop_loss_price| * risk_reward_ratio) := by
  unfold determine_take_profit
  dsimp only
  rw [if_neg (by push_neg; exact ⟨he, hs, hr⟩), if_neg (not_lt.mpr hlt.le), if_pos hlt,
    if_neg (not_lt.mpr hnn)]

theorem determine_take_profit_undefined (entry_price stop_loss_price risk_reward_ratio : ℚ)
    (h : entry_price ≤ 0 ∨ stop_loss_price ≤ 0 ∨ risk_reward_ratio ≤ 0 ∨
      entry_price = stop_loss_price) :
    determine_take_profit entry_price stop_loss_price risk_reward_ratio = none := by
  unfold determine_take_profit
  dsimp only
  rcases h with h | h | h | h
  · rw [if_pos (Or.inl h)]
  · rw [if_pos (Or.inr (Or.inl h))]
  · rw [if_pos (Or.inr (Or.inr h))]
  · split_ifs with h1 h2 h3
    · rfl
    · exact absurd h2 (by rw [h]; exact lt_irrefl _)
    · exact absurd h3 (by rw [h]; exact lt_irrefl _)
    · exact absurd h3 (by rw [h]; exact lt_irrefl _)
    · rfl

/-- C6 counterexample: at entry 100, stop 200, ratio 1 (all positive, entry
distinct from stop) the short take profit would be exactly 0, so by the claim
it should be floored to entry times 0.05 = 5; the code returns 0 instead, the
floor fires only on strictly negative values. -/
theorem claim_C6_counterexample :
    (100:ℚ) - |(100:ℚ) - 200| * 1 ≤ 0 ∧
      determine_take_profit 100 200 1 = some 0 ∧ ((0:ℚ) ≠ 100 * (5/100)) := by
  have habs : |(100:ℚ) - 200| = 100 := by
    rw [show (100:ℚ) - 200 = -100 by norm_num, abs_neg, abs_of_pos (by norm_num)]
  refine ⟨by rw [habs]; norm_num, ?_, by norm_num⟩
  rw [determine_take_profit_short_no_floor 100 200 1 (by norm_num) (by norm_num)
    (by norm_num) (by norm_num) (by rw [habs]; norm_num), habs]
  norm_num

/-- C6 amended: for positive inputs with entry distinct from stop,
determine_take_profit returns entry plus distance times ratio when entry
exceeds stop, and entry minus distance times ratio when entry is below stop,
with the short-case result floored to entry times 0.05 only when it would go
strictly below 0 (a result of exactly 0 is returned as-is); equal entry/stop
or any nonpositive input yields the undefined result none. In particular
entry 100, stop 101, ratio 2 gives 98. -/
theorem claim_C6 (entry_price stop_loss_price risk_reward_ratio : ℚ) :
    (0 < entry_price → 0 < stop_loss_price → 0 < risk_reward_ratio →
      stop_loss_price < entry_price →
      determine_take_profit entry_price stop_loss_price risk_reward_ratio =
        some (entry_price + |entry_price - stop_loss_price| * risk_reward_ratio)) ∧
    (0 < entry_price → 0 < stop_loss_price → 0 < risk_reward_ratio →
      entry_price < stop_loss_price →
      (entry_price - |entry_price - stop_loss_price| * risk_reward_ratio < 0 →
        determine_take_profit entry_price stop_loss_price risk_reward_ratio =
          some (entry_price * (5/100))) ∧
      (0 ≤ entry_price - |entry_price - stop_loss_price| * risk_reward_ratio →
        determine_take_profit entry_price stop_loss_price risk_reward_ratio =
          some (entry_price - |entry_price - stop_loss_price| * risk_reward_ratio))) ∧
    (entry_price ≤ 0 ∨ stop_loss_price ≤ 0 ∨ risk_reward_ratio ≤ 0 ∨
        entry_price = stop_loss_price →
      determine_take_profit entry_price stop_loss_price risk_reward_ratio = none) ∧
    determine_take_profit 100 101 2 = some 98 := by
  refine ⟨fun he hs hr hlt => determine_take_profit_pos_long _ _ _ he hs hr hlt,
    fun he hs hr hlt =>
      ⟨fun hneg => determine_take_profit_short_floor _ _ _ he hs hr hlt hneg,
        fun hnn => determine_take_profit_short_no_floor _ _ _ he hs hr hlt hnn⟩,
    fun h => determine_take_profit_undefined _ _ _ h, ?_⟩
  have habs : |(100:ℚ) - 101| = 1 := by
    rw [show (100:ℚ) - 101 = -1 by norm_num, abs_neg, abs_one]
  rw [determine_take_profit_short_no_floor 100 101 2 (by norm_num) (by norm_num)
    (by norm_num) (by norm_num) (by rw [habs]; norm_num), habs]
  norm_num

/-- Witness for C6 at the spec's short-case scenario entry 100, stop 101,
ratio 2: the result is 100 minus the risk distance times 2, that is 98. -/
theorem claim_C6_witness :
    (0:ℚ) < 100 ∧ (0:ℚ) < 101 ∧ (0:ℚ) < 2 ∧ (100:ℚ) < 101 ∧
      (0:ℚ) ≤ 100 - |(100:ℚ) - 101| * 2 ∧
      determine_take_profit 100 101 2 = some (100 - |(100:ℚ) - 101| * 2) := by
  have habs : |(100:ℚ) - 101| = 1 := by
    rw [show (100:ℚ) - 101 = -1 by norm_num, abs_neg, abs_one]
  refine ⟨by norm_num, by norm_num, by norm_num, by norm_num, by rw [habs]; norm_num, ?_⟩
  exact ((claim_C6 100 101 2).2.1 (by norm_num) (by norm_num) (by norm_num)
    (by norm_num)).2 (by rw [habs]; norm_num)

/-- C7 counterexample: entry 100, offset 60, ratio 2 (all positive) gives a
long take profit at offset +120 from entry, but the short case floors to 5,
offset -95, so the offsets are not equal and opposite as the claim states. -/
theorem claim_C7_counterexample :
    determine_take_profit 100 (100 - 60) 2 = some 220 ∧
      determine_take_profit 100 (100 + 60) 2 = some 5 ∧
      ¬ ((220:ℚ) - 100 = -(5 - 100)) := by
  have habs1 : |(100:ℚ) - (100 - 60)| = 60 := by
    rw [show (100:ℚ) - (100 - 60) = 60 by norm_num, abs_of_pos (by norm_num)]
  have habs2 : |(100:ℚ) - (100 + 60)| = 60 := by
    rw [show (100:ℚ) - (100 + 60) = -60 by norm_num, abs_neg, abs_of_pos (by norm_num)]
  refine ⟨?_, ?_, by norm_num⟩
  · rw [determine_take_profit_pos_long 100 (100 - 60) 2 (by norm_num) (by norm_num)
      (by norm_num) (by norm_num), habs1]
    norm_num
  · rw [determine_take_profit_short_floor 100 (100 + 60) 2 (by norm_num) (by norm_num)
      (by norm_num) (by norm_num) (by rw [habs2]; norm_num)]
    norm_num

/-- C7 amended: determine_take_profit is anti-symmetric in the long and short
roles provided the long stop stays positive (offset below entry) and the
short-case result stays non-negative (offset times ratio at most entry): then
the two take profits sit at equal and opposite offsets d times ratio from the
entry price. -/
theorem claim_C7 (entry_price d risk_reward_ratio : ℚ) (hd : 0 < d)
    (hr : 0 < risk_reward_ratio) (hde : d < entry_price)
    (hfloor : d * risk_reward_ratio ≤ entry_price) :
    determine_take_profit entry_price (entry_price - d) risk_reward_ratio =
        some (entry_price + d * risk_reward_ratio) ∧
      determine_take_profit entry_price (entry_price + d) risk_reward_ratio =
        some (entry_price - d * risk_reward_ratio) := by
  have he : 0 < entry_price := hd.trans hde
  have habs1 : |entry_price - (entry_price - d)| = d := by
    rw [sub_sub_cancel, abs_of_pos hd]
  have habs2 : |entry_price - (entry_price + d)| = d := by
    rw [show entry_price - (entry_price + d) = -d by ring, abs_neg, abs_of_pos hd]
  constructor
  · rw [determine_take_profit_pos_long _ _ _ he (by linarith) hr (by linarith), habs1]
  · rw [determine_take_profit_short_no_floor _ _ _ he (by linarith) hr (by linarith)
      (by rw [habs2]; linarith), habs2]

/-- Witness for C7 at entry 100, offset 1, ratio 2: take profits 102 and 98,
offsets +2 and -2 from the entry. -/
theorem claim_C7_witness :
    determine_take_profit 100 (100 - 1) 2 = some (100 + 1 * 2) ∧
      determine_take_profit 100 (100 + 1) 2 = some (100 - 1 * 2) :=
  claim_C7 100 1 2 (by norm_num) (by norm_num) (by norm_num) (by norm_num)

theorem regimeOf_ne_UNKNOWN (t : TrendState) (v : Volatility) :
    regimeOf t v ≠ Regime.UNKNOWN := by
  cases t <;> cases v <;> decide

theorem regimeOf_UNCERTAIN_iff (t : TrendState) (v : Volatility) :
    regimeOf t v = Regime.UNCERTAIN ↔
      v = Volatility.unknown ∨ t = TrendState.unknown := by
  cases t <;> cases v <;> decide

/-- C5: analyze_market_conditions never raises: an empty bar series or one
missing a high/low/close column returns the bare UNKNOWN regime; an exception
in either indicator computation collapses the result to regime UNKNOWN with
volatility and trend unknown; and in every non-degraded case the regime is one
of the four pair tags, never UNKNOWN, and is UNCERTAIN exactly when either
sub-field is unknown. -/
theorem claim_C5 (am : AdaptabilityManager) (data : MarketDataFrame)
    (atrResult adxResult : Except Unit (Option ℚ)) :
    (data.nrows = 0 →
      analyze_market_conditions am data atrResult adxResult =
        { volatility := none, trend := none, regime := some Regime.UNKNOWN }) ∧
    (¬ (["high", "low", "close"].all (fun col => data.cols.contains col) = true) →
      analyze_market_conditions am data atrResult adxResult =
        { volatility := none, trend := none, regime := some Regime.UNKNOWN }) ∧
    ((atrResult = Except.error () ∨ adxResult = Except.error ()) → data.nrows ≠ 0 →
      ["high", "low", "close"].all (fun col => data.cols.contains col) = true →
      analyze_market_conditions am data atrResult adxResult =
        { volatility := some Volatility.unknown, trend := some TrendState.unknown
          regime := some Regime.UNKNOWN }) ∧
    (∀ a b : Option ℚ, atrResult = Except.ok a → adxResult = Except.ok b →
      data.nrows ≠ 0 →
      ["high", "low", "close"].all (fun col => data.cols.contains col) = true →
      ∃ v t, analyze_market_conditions am data atrResult adxResult =
          { volatility := some v, trend := some t, regime := some (regimeOf t v) } ∧
        regimeOf t v ≠ Regime.UNKNOWN ∧
        (regimeOf t v = Regime.UNCERTAIN ↔
          v = Volatility.unknown ∨ t = TrendState.unknown)) := by
  refine ⟨?_, ?_, ?_, ?_⟩
  · intro h0
    unfold analyze_market_conditions
    rw [if_pos h0]
  · intro hcols
    unfold analyze_market_conditions
    by_cases h0 : data.nrows = 0
    · rw [if_pos h0]
    · rw [if_neg h0, if_pos hcols]
  · rintro (herr | herr) h0 hcols
    · subst herr
      unfold analyze_market_conditions
      rw [if_neg h0, if_neg (not_not_intro hcols)]
    · subst herr
      unfold analyze_market_conditions
      rw [if_neg h0, if_neg (not_not_intro hcols)]
      cases atrResult with
      | error e => rfl
      | ok a => rfl
  · intro a b ha hb h0 hcols
    subst ha
    subst hb
    refine ⟨classifyVolatility am a data.close.getLast?.join, classifyTrend am b, ?_,
      regimeOf_ne_UNKNOWN _ _, regimeOf_UNCERTAIN_iff _ _⟩
    unfold analyze_market_conditions
    rw [if_neg h0, if_neg (not_not_intro hcols)]

/-- Witness for C5: the empty DataFrame, a DataFrame lacking the close column,
and an ATR exception each produce the documented degraded results. -/
theorem claim_C5_witness :
    analyze_market_conditions amDefault dfEmpty (Except.ok none) (Except.ok none) =
      { volatility := none, trend := none, regime := some Regime.UNKNOWN } ∧
    analyze_market_conditions amDefault dfNoClose (Except.ok none) (Except.ok none) =
      { volatility := none, trend := none, regime := some Regime.UNKNOWN } ∧
    analyze_market_conditions amDefault dfOne (Except.error ()) (Except.ok none) =
      { volatility := some Volatility.unknown, trend := some TrendState.unknown
        regime := some Regime.UNKNOWN } :=
  ⟨(claim_C5 amDefault dfEmpty (Except.ok none) (Except.ok none)).1 rfl,
    (claim_C5 amDefault dfNoClose (Except.ok none) (Except.ok none)).2.1 (by decide),
    (claim_C5 amDefault dfOne (Except.error ()) (Except.ok none)).2.2.1 (Or.inl rfl)
      (by decide) (by decide)⟩

/-- C8 counterexample: on conditions with trend trending, volatility high and
regime TRENDING_HIGH_VOL, suggest_strategy_adjustment returns stop loss
multiplier 1.5 times 1.2 = 1.8, not the 0.96 the claim states. -/
theorem claim_C8_counterexample :
    (suggest_strategy_adjustment
        { volatility := some Volatility.high, trend := some TrendState.trending
          regime := some Regime.TRENDING_HIGH_VOL }).stop_loss_multiplier = 15/10 * (12/10) ∧
      (15/10 : ℚ) * (12/10) ≠ 96/100 := by
  constructor
  · rfl
  · norm_num

/-- C8 amended: conditions with trend trending and volatility high classify to
regime TRENDING_HIGH_VOL, and suggest_strategy_adjustment on those conditions
returns strategy trend_following, risk multiplier 0.8, stop loss multiplier
1.8 (the table value 1.5 post-adjusted by 1.2 for high volatility) and take
profit multiplier 2.0. -/
theorem claim_C8 (am : AdaptabilityManager) (data : MarketDataFrame)
    (atrResult adxResult : Except Unit (Option ℚ)) :
    ((analyze_market_conditions am data atrResult adxResult).trend =
        some TrendState.trending →
      (analyze_market_conditions am data atrResult adxResult).volatility =
        some Volatility.high →
      (analyze_market_conditions am data atrResult adxResult).regime =
        some Regime.TRENDING_HIGH_VOL) ∧
    suggest_strategy_adjustment
        { volatility := some Volatility.high, trend := some TrendState.trending
          regime := some Regime.TRENDING_HIGH_VOL } =
      { strategy_type := "trend_following", risk_per_trade_multiplier := 8/10
        stop_loss_multiplier := 15/10 * (12/10), take_profit_multiplier := 2 } := by
  constructor
  · intro ht hv
    unfold analyze_market_conditions at ht hv ⊢
    by_cases h1 : data.nrows = 0
    · rw [if_pos h1] at ht
      exact absurd ht (by simp)
    · rw [if_neg h1] at ht hv ⊢
      by_cases h2 : ¬ (["high", "low", "close"].all (fun col => data.cols.contains col) = true)
      · rw [if_pos h2] at ht
        exact absurd ht (by simp)
      · rw [if_neg h2] at ht hv ⊢
        cases atrResult with
        | error e => exact absurd (Option.some.inj ht) (by decide)
        | ok a =>
          cases adxResult with
          | error e => exact absurd (Option.some.inj ht) (by decide)
          | ok b =>
            dsimp only at ht hv ⊢
            rw [Option.some.inj ht, Option.some.inj hv]
            rfl
  · rfl

/-- Witness for C8: with default thresholds, a one-row DataFrame with latest
close 100, an ATR of 50 and an ADX of 30, the analysis is trending and high
volatility, so the regime is TRENDING_HIGH_VOL. -/
theorem claim_C8_witness :
    (analyze_market_conditions amDefault dfOne (Except.ok (some 50))
        (Except.ok (some 30))).regime = some Regime.TRENDING_HIGH_VOL := by
  have ht : (analyze_market_conditions amDefault dfOne (Except.ok (some 50))
      (Except.ok (some 30))).trend = some TrendState.trending := by
    unfold analyze_market_conditions
    rw [if_neg (by decide), if_neg (by decide)]
    dsimp only
    unfold classifyTrend amDefault
    norm_num
  have hv : (analyze_market_conditions amDefault dfOne (Except.ok (some 50))
      (Except.ok (some 30))).volatility = some Volatility.high := by
    unfold analyze_market_conditions
    rw [if_neg (by decide), if_neg (by decide)]
    dsimp only
    have hclose : dfOne.close.getLast?.join = some 100 := rfl
    rw [hclose]
    unfold classifyVolatility amDefault
    norm_num
  exact (claim_C8 amDefault dfOne (Except.ok (some 50)) (Except.ok (some 30))).1 ht hv

theorem processed_filter_eq (bars : List Bar) :
    ((List.range bars.length).map (buildRow bars)).filter keepRow =
      (retainedIndices bars).map (buildRow bars) := by
  unfold retainedIndices
  rw [List.filter_map]
  rfl

theorem swing_flag_eq_one {c : Prop} [Decidable c] : ((if c then (1:ℤ) else 0) = 1) ↔ c := by
  split_ifs with h
  · exact iff_of_true rfl h
  · exact iff_of_false (by norm_num) h

/-- C9: generate_signal equals the spec's decision rule: evaluated on the most
recent bar remaining after rows with an undefined indicator value are dropped,
it returns BUY iff short SMA above long SMA, the bar is a rolling 20-period
swing low, close above long SMA and volume SMA positive; else SELL on the
mirrored conditions; else HOLD, and HOLD when the input is empty or nothing
remains. -/
theorem claim_C9 (bars : List Bar) : generate_signal bars = specSignal bars := by
  cases bars with
  | nil => rfl
  | cons b bs =>
    unfold generate_signal specSignal
    rw [if_neg (show ¬ ((b :: bs).isEmpty = true) from fun hc => Bool.false_ne_true hc)]
    dsimp only
    rw [processed_filter_eq, List.getLast?_map]
    cases hlast : (retainedIndices (b :: bs)).getLast? with
    | none => rfl
    | some i =>
      have hmem : i ∈ retainedIndices (b :: bs) := List.mem_of_mem_getLast? hlast
      unfold retainedIndices at hmem
      obtain ⟨hrange, hkeep⟩ := List.mem_filter.mp hmem
      simp only [Bool.and_eq_true, Option.isSome_iff_exists] at hkeep
      obtain ⟨⟨⟨s, hs⟩, l, hl⟩, v, hv⟩ := hkeep
      simp only [Option.map_some', keepRow, buildRow]
      rw [hs, hl, hv]
      simp only [Option.getD_some]
      exact if_congr (and_congr Iff.rfl (and_congr swing_flag_eq_one Iff.rfl)) rfl
        (if_congr (and_congr Iff.rfl (and_congr swing_flag_eq_one Iff.rfl)) rfl rfl)

end TitanForge
